import Mathlib

/-!
Verification of the `clap` command-line argument parsing library.

The repository ships two snapshots of the package: one under `clap/`
(modules `lexer.py`, `parser.py`, `options.py`, `converter.py`, ...)
and one under `src/clap/` (modules `token.py`, `lexer.py`, `parser.py`,
`option.py`, `abc.py`, `converter.py`, ...).  Both are embedded below:
namespace `Clap` holds the `clap/` snapshot and namespace `ClapS` holds
the `src/clap/` snapshot.  Python strings are modelled as Lean `String`
(operating on ASCII data), Python exceptions as explicit `Except`
results, and the `MISSING` sentinel as a dedicated `Value` constructor.
-/

namespace Spec2Proof

/-- Python truthiness and primitive values flowing through the parser:
converted option/argument values, `None`, and the `MISSING` sentinel
(`_Missing` from `utils.py` / `sentinel.py`, which is falsy and equal to
nothing, not even itself; we model equality structurally but never rely
on `MISSING == MISSING`). -/
inductive Value where
  | str (s : String)
  | int (n : Int)
  | bool (b : Bool)
  | none
  | missing
deriving DecidableEq, Repr

/-- Python truthiness (`bool(x)`): `MISSING.__bool__` returns `False`,
`None` is falsy, `""` and `0` are falsy. -/
def truthy : Value → Bool
  | .str s => s ≠ ""
  | .int n => n ≠ 0
  | .bool b => b
  | .none => false
  | .missing => false

/-- Python `not x` on a value. -/
def pyNot (v : Value) : Bool := !(truthy v)

/-- Python `str(b)` for a boolean. -/
def pyStrOfBool (b : Bool) : String := if b then "True" else "False"

/-- `s.lower()` restricted to ASCII data. -/
def pyLower (s : String) : String := String.mk (s.data.map Char.toLower)

/-- Digit list to natural number (base 10). -/
def digitsToNat (ds : List Char) : Nat :=
  ds.foldl (fun acc c => acc * 10 + (c.toNat - '0'.toNat)) 0

/-- Python `int(s)`: strip surrounding whitespace, optional sign, then a
nonempty run of decimal digits (`none` models the raised `ValueError`). -/
def pyIntParse (s : String) : Option Int :=
  let t := ((s.data.dropWhile Char.isWhitespace).reverse.dropWhile
    Char.isWhitespace).reverse
  match t with
  | '-' :: ds =>
      if ds ≠ [] ∧ ds.all Char.isDigit then some (-(digitsToNat ds : Int))
      else Option.none
  | '+' :: ds =>
      if ds ≠ [] ∧ ds.all Char.isDigit then some ((digitsToNat ds : Int))
      else Option.none
  | ds =>
      if ds ≠ [] ∧ ds.all Char.isDigit then some ((digitsToNat ds : Int))
      else Option.none

/-- `s.isnumeric()` on ASCII data: nonempty and all digits. -/
def pyIsNumeric (ds : List Char) : Bool := !ds.isEmpty && ds.all Char.isDigit

/-- Leading-match scan (`leadsWith p s` is `s.startswith(p)` on
character data; Lean's `String.startsWith` does not reduce inside the
kernel, so the embedding uses this structural version). -/
def leadsWith : List Char → List Char → Bool
  | [], _ => true
  | _ :: _, [] => false
  | c :: ps, d :: ss => c = d && leadsWith ps ss

/-- Python `s.startswith(p)`. -/
def strStarts (s p : String) : Bool := leadsWith p.data s.data

/-- Split a character list at the first occurrence of `sep`
(Python `split(sep, maxsplit=1)` when `sep` occurs). -/
def splitFirst (sep : Char) : List Char → Option (List Char × List Char)
  | [] => Option.none
  | c :: cs =>
      if c = sep then some ([], cs)
      else (splitFirst sep cs).map (fun p => (c :: p.1, p.2))

/-- Association-list lookup modelling `dict.__getitem__` /
`key in dict` over an insertion-ordered dictionary. -/
def lookupAssoc {α : Type} : List (String × α) → String → Option α
  | [], _ => Option.none
  | (k, v) :: rest, key => if k = key then some v else lookupAssoc rest key

/-- `dict[key] = value`: replace the first binding of `key` in place, or
append a fresh binding at the end (insertion order preserved). -/
def setk {α : Type} : List (String × α) → String → α → List (String × α)
  | [], key, v => [(key, v)]
  | (k, w) :: rest, key, v =>
      if k = key then (k, v) :: rest else (k, w) :: setk rest key v

/-- `dict.pop(key, default)`: the removed value (or `default`) and the
remaining dictionary. -/
def popk {α : Type} : List (String × α) → String → α → α × List (String × α)
  | [], _, d => (d, [])
  | (k, w) :: rest, key, d =>
      if k = key then (w, rest)
      else
        let (v, rest') := popk rest key d
        (v, (k, w) :: rest')

/-- `dict.pop(key, None)` as deletion: the dictionary without the first
binding of `key`. -/
def delk {α : Type} : List (String × α) → String → List (String × α)
  | [], _ => []
  | (k, w) :: rest, key => if k = key then rest else (k, w) :: delk rest key

/-- The keys of an insertion-ordered dictionary (`dict.keys()`). -/
def keysOf {α : Type} (m : List (String × α)) : List String := m.map Prod.fst

/-! ## Target-type descriptors

Both converters receive a Python type object. Descriptors are modelled
as a sum: a primitive constructor or a `Union[...]` with its argument
list. `typing` flattens nested unions, so union members are primitive
(`get_args` on a union never yields another union). -/

/-- A primitive target type: `str`, `int`, `bool`, or `NoneType` (the
member `typing` inserts for `Optional`). -/
inductive Base where
  | str
  | int
  | bool
  | noneType
deriving DecidableEq, Repr

/-- `cls.__name__` for a primitive target type. -/
def Base.pyName : Base → String
  | .str => "str"
  | .int => "int"
  | .bool => "bool"
  | .noneType => "NoneType"

/-- A target-type descriptor: a primitive or a union of primitives. -/
inductive Ty where
  | base (b : Base)
  | union (args : List Base)
deriving DecidableEq, Repr

/-- Conversion failure, carrying the raw argument and the attempted
type name(s) interpolated into the raised message. -/
inductive ConvErr where
  | unable (argument : String) (tyName : String)
  | unableUnion (argument : String) (tyNames : List String)
deriving DecidableEq, Repr

end Spec2Proof

namespace Spec2Proof.ClapS

/-! ## `src/clap/token.py` -/

/-- `TokenKind` (`src/clap/token.py`). -/
inductive TokenKind where
  | long
  | short
  | argument
  | escape
  | stdin
deriving DecidableEq, Repr

/-- Exceptions surfacing from the `src/clap` snapshot. -/
inductive ErrS where
  | argumentError (msg : String)
  | notImplemented
  | assertionFailed
  | keyError (key : String)
  | valueError (msg : String)
  | typeError (msg : String)
  | subcommandAlreadyExists (name : String)
  | optionAlreadyExists (name : String)
deriving DecidableEq, Repr

/-- `TokenKind.from_string` (`src/clap/token.py`, lines 22-38): `"--"` is
Escape, other `"--"`-prefixed strings are LongOption, `"-"` is Stdin, a
`"-"` followed by an alphabetic character is a ShortOptionStack, a `"-"`
followed by a numeric character is a PositionalArgument, anything not
starting with `"-"` is a PositionalArgument, and a `"-"` followed by any
other character raises `NotImplementedError`. -/
def TokenKind.fromStringL : List Char → Except ErrS TokenKind
  | [] => .ok .argument
  | c :: rest =>
      if c = '-' then
        match rest with
        | [] => .ok .stdin
        | c2 :: rest2 =>
            if c2 = '-' then .ok (if rest2.isEmpty then .escape else .long)
            else if c2.isAlpha then .ok .short
            else if c2.isDigit then .ok .argument
            else .error .notImplemented
      else .ok .argument

/-- String-level wrapper for `TokenKind.from_string`. -/
def TokenKind.fromString (value : String) : Except ErrS TokenKind :=
  TokenKind.fromStringL value.data

/-- `Token` (`src/clap/token.py`). -/
structure Token where
  kind : TokenKind
  literal : String
deriving DecidableEq, Repr

/-- `Token.is_escape`. -/
def Token.isEscape (t : Token) : Bool := t.literal = "--"

/-- `Token.is_stdin`. -/
def Token.isStdin (t : Token) : Bool := t.literal = "-"

/-- `Token.is_negative_number`: length above one, leading `-`, and the
remainder all numeric. -/
def Token.isNegativeNumber (t : Token) : Bool :=
  decide (t.literal.length > 1) && strStarts t.literal "-"
    && pyIsNumeric (t.literal.data.drop 1)

/-- `Token.is_option`: length above one, leading `-`, and not a negative
number literal. -/
def Token.isOption (t : Token) : Bool :=
  decide (t.literal.length > 1) && strStarts t.literal "-"
    && !t.isNegativeNumber

/-- `Token.is_argument`. -/
def Token.isArgument (t : Token) : Bool := t.kind = .argument

/-- `Token.as_long_option`: strip the leading `--`, split on the first
`=`; the value is `""` when no `=` occurs. -/
def Token.asLongOption (t : Token) : String × String :=
  let remainder :=
    if strStarts t.literal "--" then t.literal.data.drop 2 else t.literal.data
  match splitFirst '=' remainder with
  | some (k, v) => (String.mk k, String.mk v)
  | Option.none => (String.mk remainder, "")

/-- The character scan inside `Token.as_short_option`
(`src/clap/token.py`, lines 99-150). `remainder` is the token literal
without its single leading `-`.  A character whose successor is a digit
takes the whole rest of the string as its value — raising
`ArgumentError` unless that rest is wholly numeric — and ends the scan;
a character whose successor is `=` takes the rest after the `=` as its
value and ends the scan; a character whose successor is alphabetic (or
absent) is a zero-value flag; any other successor raises
`NotImplementedError`. -/
def asShortOptionGo : List Char → Except ErrS (List (String × String))
  | [] => .ok []
  | c :: rest =>
      match rest with
      | [] => .ok [(String.mk [c], "")]
      | c2 :: rest2 =>
          if c2.isAlpha then do
            let tail ← asShortOptionGo rest
            .ok ((String.mk [c], "") :: tail)
          else if c2.isDigit then
            if pyIsNumeric rest then .ok [(String.mk [c], String.mk rest)]
            else .error (.argumentError ("expected value for '"
              ++ String.mk [c] ++ "' to be numeric"))
          else if c2 = '=' then
            .ok [(String.mk [c], String.mk rest2)]
          else
            .error .notImplemented

/-- `Token.as_short_option`: a bare `-` yields the single `("", "")`
pair; otherwise the stack is scanned left to right by
`asShortOptionGo`. -/
def Token.asShortOption (t : Token) : Except ErrS (List (String × String)) :=
  let remainder :=
    if strStarts t.literal "-" then t.literal.data.drop 1 else t.literal.data
  if remainder.isEmpty then .ok [("", "")]
  else asShortOptionGo remainder

/-- `Token.as_argument`: the literal itself. -/
def Token.asArgument (t : Token) : String := t.literal

end Spec2Proof.ClapS

namespace Spec2Proof.Clap

/-! ## `clap/lexer.py` -/

/-- `TokenType` (`clap/lexer.py`). -/
inductive TokenType where
  | longOption
  | shortOption
  | argument
  | escape
  | stdin
deriving DecidableEq, Repr

/-- Exceptions surfacing from the `clap/` snapshot's parsing pipeline. -/
inductive PErr where
  | invalidOptionTok (tokenValue : String)
  | invalidOptionFlag (flag : String)
  | invalidCommand (value : String)
  | tooManyArguments (value : String)
  | missingRequiredOption (name : String)
  | conversionError (e : ConvErr)
  | conflictError (name other : String)
  | optionExists (name : String)
  | aliasExists (existingName al : String)
  | aliasTooLong
  | requiresError (name required : String)
  | keyError (key : String)
  | typeErrorTokenSubscript
  | notImplemented
  | assertionFailed
deriving DecidableEq, Repr

/-- `Token` (`clap/lexer.py`). -/
structure Token where
  tokenType : TokenType
  value : String
deriving DecidableEq, Repr

/-- `Token.as_kebab_case`: strip every leading `-`. -/
def Token.asKebabCase (t : Token) : String :=
  String.mk (t.value.data.dropWhile (· = '-'))

/-- `Token.as_snake_case`: strip every leading `-` and replace each `-`
with `_` (note: applied to the whole literal, including any `=value`
part). -/
def Token.asSnakeCase (t : Token) : String :=
  String.mk ((t.value.data.dropWhile (· = '-')).map
    (fun c => if c = '-' then '_' else c))

/-- `Token.is_escape`. -/
def Token.isEscape (t : Token) : Bool :=
  t.tokenType = .escape && t.value = "--"

/-- `Token.is_stdin`. -/
def Token.isStdin (t : Token) : Bool :=
  t.tokenType = .stdin && t.value = "-"

/-- `Token.is_option`. -/
def Token.isOption (t : Token) : Bool :=
  (t.tokenType = .longOption || t.tokenType = .shortOption)
    && strStarts t.value "-"

/-- `Token.is_long_option`. -/
def Token.isLongOption (t : Token) : Bool :=
  t.tokenType = .longOption && strStarts t.value "--" && !t.isEscape

/-- `Token.is_short_option`. -/
def Token.isShortOption (t : Token) : Bool :=
  t.tokenType = .shortOption && strStarts t.value "-" && !t.isStdin

/-- `Token.is_negative_number` (`clap/lexer.py`, lines 140-153): the
final conjunct evaluates `self[1:]`, subscripting the `Token` object
itself (the class defines no `__getitem__`), which raises `TypeError`;
the earlier conjuncts short-circuit, so only ARGUMENT tokens whose value
starts with `-` reach the crash. -/
def Token.isNegativeNumberE (t : Token) : Except PErr Bool :=
  if t.tokenType = .argument && strStarts t.value "-" && !t.isStdin then
    .error .typeErrorTokenSubscript
  else .ok false

/-- `Token.is_argument`: `token_type == ARGUMENT and
(is_negative_number or not is_option)` with Python short-circuiting
(so the `TypeError` inside `is_negative_number` only fires for ARGUMENT
tokens starting with `-`). -/
def Token.isArgumentE (t : Token) : Except PErr Bool :=
  if t.tokenType = .argument then do
    let neg ← t.isNegativeNumberE
    .ok (neg || !t.isOption)
  else .ok false

/-- `Token.from_long_option`: strip the leading `--` when the token is a
long option, split on the first `=`. -/
def Token.fromLongOption (t : Token) : String × String :=
  let remainder :=
    if t.isLongOption then t.value.data.drop 2 else t.value.data
  match splitFirst '=' remainder with
  | some (k, v) => (String.mk k, String.mk v)
  | Option.none => (String.mk remainder, "")

/-- `Token.from_argument`: a copy of the raw value. -/
def Token.fromArgument (t : Token) : String := t.value

/-- The character scan inside the `Token.from_short_option` generator
(`clap/lexer.py`, lines 185-242): a character whose successor is numeric
takes the whole rest (verbatim, with no digits-only check) as its value
and breaks; a successor of `=` takes the rest after the `=` and breaks;
otherwise `assert option.isalpha()` and the character is a zero-value
flag. -/
def fromShortOptionGo : List Char → Except PErr (List (String × String))
  | [] => .ok []
  | c :: rest =>
      match rest with
      | [] =>
          if c.isAlpha then .ok [(String.mk [c], "")]
          else .error .assertionFailed
      | c2 :: rest2 =>
          if c2.isDigit then .ok [(String.mk [c], String.mk rest)]
          else if c2 = '=' then .ok [(String.mk [c], String.mk rest2)]
          else if c.isAlpha then do
            let tail ← fromShortOptionGo rest
            .ok ((String.mk [c], "") :: tail)
          else .error .assertionFailed

/-- The pairs produced by iterating `Token.from_short_option`.  For an
empty remainder (bare `-`) the Python generator executes
`return (("", ""),)`: inside a generator a `return` only stops the
iteration, so the tuple is never yielded and the iteration produces no
pairs at all. -/
def Token.fromShortOptionPairs (t : Token) :
    Except PErr (List (String × String)) :=
  let remainder :=
    if t.isShortOption then t.value.data.drop 1 else t.value.data
  if remainder.isEmpty then .ok []
  else fromShortOptionGo remainder

/-- `Lexer._maybe_long_option`: `ESCAPE` for exactly `--`, otherwise
`LONG_OPTION` (only called on arguments starting with `--`). -/
def maybeLongOption (argument : String) : TokenType :=
  if argument = "--" then .escape else .longOption

/-- `Lexer._maybe_short_option` (`clap/lexer.py`, lines 495-519): on an
argument starting with `-`, an empty remainder is STDIN, an alphabetic
first character is SHORT_OPTION, a wholly numeric remainder is ARGUMENT,
and anything else raises `NotImplementedError`. -/
def maybeShortOptionL (remainder : List Char) : Except PErr TokenType :=
  match remainder with
  | [] => .ok .stdin
  | c :: _ =>
      if c.isAlpha then .ok .shortOption
      else if pyIsNumeric remainder then .ok .argument
      else .error .notImplemented

/-- String-level wrapper for `Lexer._maybe_short_option`: drop the
leading `-` and scan the remainder. -/
def maybeShortOption (argument : String) : Except PErr TokenType :=
  maybeShortOptionL (argument.data.drop 1)

/-- The classification performed by `Lexer.__next__` before any escape
forcing: try the `--` rule, then the `-` rule, else ARGUMENT. -/
def classify (argument : String) : Except PErr TokenType :=
  if strStarts argument "--" then .ok (maybeLongOption argument)
  else if strStarts argument "-" then maybeShortOption argument
  else .ok .argument

/-- `Lexer.escape`: index of the first `--` in the argument list, or its
length when absent. -/
def escapeIndex (args : List String) : Nat :=
  match args.findIdx? (· = "--") with
  | some i => i
  | Option.none => args.length

/-- `Lexer.__next__` for the argument at position `i`: positions
strictly after the escape index are forced to ARGUMENT, everything else
goes through classification. -/
def tokenAt (escIdx : Nat) (i : Nat) (s : String) : Except PErr Token :=
  if i > escIdx then .ok ⟨.argument, s⟩
  else do
    let tt ← classify s
    .ok ⟨tt, s⟩

end Spec2Proof.Clap

namespace Spec2Proof.Clap

/-! ## `clap/converter.py` -/

/-- `convert_to_bool` (`clap/converter.py`, lines 60-83). -/
def convertToBool (argument : String) : Except ConvErr Bool :=
  if ["yes", "y", "true", "t", "1"].contains (pyLower argument) then .ok true
  else if ["no", "n", "false", "f", "0"].contains (pyLower argument) then
    .ok false
  else .error (.unable argument "bool")

/-- `actual_conversion` (`clap/converter.py`, lines 86-122): `bool` goes
through `convert_to_bool`; any other constructor is invoked on the raw
string, failures becoming a `ValueError` naming the type and value
(`int("x")` raises; `str` always succeeds; `NoneType(x)` raises
`TypeError`, wrapped the same way). -/
def actualConversion (converter : Base) (argument : String) :
    Except ConvErr Value :=
  match converter with
  | .bool => (convertToBool argument).map Value.bool
  | .int =>
      match pyIntParse argument with
      | some n => .ok (.int n)
      | Option.none => .error (.unable argument "int")
  | .str => .ok (.str argument)
  | .noneType => .error (.unable argument "NoneType")

/-- The union loop of `convert` (`clap/converter.py`, lines 154-174):
candidates are tried left to right; reaching the `NoneType` candidate
executes `return None if default is not MISSING else default`; the
first success is returned; exhausting the list raises one `ValueError`
naming every union argument. -/
def convertUnionGo (allArgs : List Base) (argument : String)
    (default : Value) : List Base → Except ConvErr Value
  | [] => .error (.unableUnion argument (allArgs.map Base.pyName))
  | a :: rest =>
      if a = .noneType then
        .ok (if default ≠ .missing then Value.none else default)
      else
        match actualConversion a argument with
        | .ok v => .ok v
        | .error _ => convertUnionGo allArgs argument default rest

/-- `convert` (`clap/converter.py`, lines 125-204), restricted to the
union and primitive branches exercised by the descriptor model. -/
def convert (converter : Ty) (argument : String) (default : Value) :
    Except ConvErr Value :=
  match converter with
  | .union args => convertUnionGo args argument default args
  | .base b => actualConversion b argument

end Spec2Proof.Clap

namespace Spec2Proof.ClapS

/-! ## `src/clap/converter.py` -/

/-- Render a conversion failure the way `src/clap/converter.py`
interpolates it into an `ArgumentError` message. -/
def renderConvErr : ConvErr → String
  | .unable argument tyName =>
      "unable to convert '" ++ argument ++ "' to '" ++ tyName ++ "'"
  | .unableUnion argument tyNames =>
      "unable to convert '" ++ argument ++ "' into one of ("
        ++ String.intercalate ", " tyNames ++ ")"

/-- The default branch of `convert` (`src/clap/converter.py`, lines
78-105): `bool` matches the yes/no literals case-insensitively; any
other constructor is applied to the raw string, failures wrapped into
an `ArgumentError` naming the type. -/
def convertSBase (converter : Base) (argument : String)
    (_defaultValue : Value) : Except ConvErr Value :=
  match converter with
  | .bool =>
      if ["yes", "y", "true", "t", "1"].contains (pyLower argument) then
        .ok (.bool true)
      else if ["no", "n", "false", "f", "0"].contains (pyLower argument) then
        .ok (.bool false)
      else .error (.unable argument "bool")
  | .int =>
      match pyIntParse argument with
      | some n => .ok (.int n)
      | Option.none => .error (.unable argument "int")
  | .str => .ok (.str argument)
  | .noneType => .error (.unable argument "NoneType")

/-- The union loop of `convert` (`src/clap/converter.py`, lines 23-54):
the `if arg is None` early return never fires, because `get_args` on a
union yields the type `NoneType`, never the value `None`; each member
is converted recursively, failures are collected, the first success
returns, and exhaustion raises one `ArgumentError` naming every
attempted member. -/
def convertSUnionGo (allArgs : List Base) (argument : String)
    (defaultValue : Value) : List Base → Except ConvErr Value
  | [] => .error (.unableUnion argument (allArgs.map Base.pyName))
  | a :: rest =>
      match convertSBase a argument defaultValue with
      | .ok v => .ok v
      | .error _ => convertSUnionGo allArgs argument defaultValue rest

/-- `convert` (`src/clap/converter.py`, lines 15-107), restricted to the
union and default branches exercised by the descriptor model. -/
def convertS (argument : String) (converter : Ty) (defaultValue : Value) :
    Except ConvErr Value :=
  match converter with
  | .union args => convertSUnionGo args argument defaultValue args
  | .base b => convertSBase b argument defaultValue

end Spec2Proof.ClapS

namespace Spec2Proof.Clap

/-! ## `clap/options.py` — the `Option` data model and registry -/

/-- `Option` (`clap/options.py`): name, brief, target-type descriptor,
default (the unset sentinel is `Value.missing`), cardinality range,
optional single-character alias (`Option.none` models `MISSING`), and
the `requires`/`conflicts` name sets. -/
structure Opt where
  name : String
  brief : String
  targetType : Ty
  default : Value
  nArgsMin : Int
  nArgsMax : Int
  shortAlias : Option String
  requires : List String
  conflicts : List String
deriving DecidableEq, Repr

/-- `Option.as_snake_case`:`name.replace("-", "_")`. -/
def Opt.asSnakeCase (o : Opt) : String :=
  String.mk (o.name.data.map (fun c => if c = '-' then '_' else c))

/-- `Option.as_kebab_case`: `name.replace("_", "-")`. -/
def Opt.asKebabCase (o : Opt) : String :=
  String.mk (o.name.data.map (fun c => if c = '_' then '-' else c))

/-- The `n_args` argument accepted by `Option.__init__`: an int, a
tuple, or an already-built `Range`. -/
inductive NArgsIn where
  | int (n : Int)
  | pair (a b : Int)
  | range (a b : Int)
deriving DecidableEq, Repr

/-- `Option.__init__` (`clap/options.py`, lines 68-115): a `MISSING`
target type becomes `str`; a mismatched default only logs a warning; a
`MISSING` default with a `bool` target becomes `False`; `n_args` is
normalized to a `Range`; a truthy alias longer than one character
raises `ValueError`; `MISSING` requires/conflicts become empty sets. -/
def mkOption (name brief : String) (targetTypeIn : Option Ty)
    (defaultIn : Value) (nArgs : NArgsIn) (aliasIn : Option String)
    (requiresIn conflictsIn : Option (List String)) : Except PErr Opt :=
  let targetType := targetTypeIn.getD (Ty.base .str)
  let default :=
    if defaultIn = Value.missing ∧ targetType = Ty.base .bool then
      Value.bool false
    else defaultIn
  let nPair : Int × Int :=
    match nArgs with
    | .int n => (n, n)
    | .pair a b => (a, b)
    | .range a b => (a, b)
  let aliasBad : Bool :=
    match aliasIn with
    | some al => al ≠ "" && decide (al.length > 1)
    | Option.none => false
  if aliasBad then .error .aliasTooLong
  else
    .ok
      { name := name, brief := brief, targetType := targetType,
        default := default, nArgsMin := nPair.1, nArgsMax := nPair.2,
        shortAlias := aliasIn,
        requires := requiresIn.getD [],
        conflicts := conflictsIn.getD [] }

/-- `Option.convert` (`clap/options.py`, lines 206-224): run the
conversion engine with an omitted (`MISSING`) default and raise
`ValueError: Missing required option` when the result is `None`. -/
def Opt.convertVal (o : Opt) (value : String) : Except PErr Value :=
  match Clap.convert o.targetType value Value.missing with
  | .error e => .error (.conversionError e)
  | .ok v =>
      if v = Value.none then .error (.missingRequiredOption o.name)
      else .ok v

/-- `Option.validate_requires` (`clap/options.py`, lines 245-262):
iterate this option's `requires` set; the first name not among the
bound option names raises. -/
def validateRequiresGo (name : String) (keys : List String) :
    List String → Except PErr Unit
  | [] => .ok ()
  | r :: rs =>
      if keys.contains r then validateRequiresGo name keys rs
      else .error (.requiresError name r)

/-- `Option.validate_conflicts` (`clap/options.py`, lines 226-243):
iterate the bound option names; the first one found in this option's
`conflicts` set raises, naming this option and the conflicting one. -/
def validateConflictsGo (name : String) (conflicts : List String) :
    List String → Except PErr Unit
  | [] => .ok ()
  | k :: ks =>
      if conflicts.contains k then .error (.conflictError name k)
      else validateConflictsGo name conflicts ks

/-- `remove_option` (`clap/options.py`, lines 303-332): pop the name
(`None` when absent); when the popped option has an alias, either clear
the alias (when the popped key was the alias itself) or pop the alias
key as well — even when that key belongs to a different option. -/
def removeOption (allOptions : List (String × Opt)) (name : String) :
    List (String × Opt) × Option Opt :=
  match lookupAssoc allOptions name with
  | Option.none => (allOptions, Option.none)
  | some option =>
      let reg := delk allOptions name
      match option.shortAlias with
      | Option.none => (reg, some option)
      | some al =>
          if name = al then
            (reg, some { option with shortAlias := Option.none })
          else (delk reg al, some option)

/-- `add_option` (`clap/options.py`, lines 275-300): reject a duplicate
name outright; otherwise insert under the name, then — when an alias is
set and already taken — call `remove_option` on the new name and raise.
Returns the registry as left behind plus the raised error, if any. -/
def addOption (allOptions : List (String × Opt)) (option : Opt) :
    List (String × Opt) × Option PErr :=
  if (lookupAssoc allOptions option.name).isSome then
    (allOptions, some (.optionExists option.name))
  else
    let reg := setk allOptions option.name option
    match option.shortAlias with
    | Option.none => (reg, Option.none)
    | some al =>
        match lookupAssoc reg al with
        | some existing =>
            let (reg', _) := removeOption reg option.name
            (reg', some (.aliasExists existing.name al))
        | Option.none => (setk reg al option, Option.none)
end Spec2Proof.Clap

namespace Spec2Proof.Clap

/-! ## `clap/parser.py` — the deferred-option parser -/

/-- A positional declaration on a leaf command (`Command.arguments`). -/
structure Arg where
  name : String
  targetType : Ty
  default : Value
deriving DecidableEq, Repr

/-- Modelled from the spec: `handle_argument_token` calls
`argument.convert(value)`, but no positional-argument class in the
`clap/` snapshot defines a `convert` method; the spec says a Leaf
"converts the raw value using the next unfilled Positional's target
type", so the conversion engine is applied to the declared target
descriptor. -/
def Arg.convertVal (a : Arg) (value : String) : Except PErr Value :=
  match Clap.convert a.targetType value Value.missing with
  | .error e => .error (.conversionError e)
  | .ok v => .ok v

/-- A command-tree node as the parser observes it: the
`ArgumentParser`/`Group` side carries `all_commands` (the
`SupportsCommands` protocol) and the `Command` leaf side carries the
ordered positional declarations; every node carries `all_options`
(alias keys included) and its name. -/
inductive Node where
  | group (name : String) (allOptions : List (String × Opt))
      (allCommands : List (String × Node))
  | leaf (name : String) (allOptions : List (String × Opt))
      (arguments : List Arg)

/-- The node's name. -/
def Node.name : Node → String
  | .group n _ _ => n
  | .leaf n _ _ => n

/-- The node's `all_options` dictionary. -/
def Node.allOptions : Node → List (String × Opt)
  | .group _ os _ => os
  | .leaf _ os _ => os

/-- `_Context` (`clap/parser.py`, lines 55-72): the currently active
command, parsed positional values, and the keyword (bound-option)
dictionary. -/
structure Ctx where
  command : Node
  positional : List Value
  keyword : List (String × Value)

/-- Lines 432-441 of `handle_long_option_token`: with no inline value,
first evaluate `valid_next_token` (possibly raising the `is_argument`
`TypeError`), then a `bool` target asserts its default is set and takes
the string of the negated default; otherwise a usable following token
is consumed as the value when the option's maximum cardinality is
positive; otherwise the value is the empty string. -/
def longOptionRawValue (option : Opt) (nt : Option Token)
    (value0 : String) : Except PErr String :=
  if value0 = "" then do
    let validNext ←
      match nt with
      | Option.none => pure false
      | some u => u.isArgumentE
    if option.targetType = Ty.base .bool then
      if option.default = Value.missing then .error .assertionFailed
      else pure (pyStrOfBool (pyNot option.default))
    else if validNext && decide (option.nArgsMax > 0) then
      pure (match nt with | some u => u.fromArgument | Option.none => "")
    else pure ""
  else pure value0

/-- `handle_long_option_token` (`clap/parser.py`, lines 420-444): split
the token, look its full snake-cased literal up in the active node's
options (miss: `invalid option`), compute the raw value, convert it,
and bind it under the option's snake-cased name. -/
def handleLongOptionToken (t : Token) (nt : Option Token) (ctx : Ctx) :
    Except PErr Ctx := do
  let value0 := (t.fromLongOption).2
  match lookupAssoc ctx.command.allOptions t.asSnakeCase with
  | Option.none => .error (.invalidOptionTok t.value)
  | some option => do
      let raw ← longOptionRawValue option nt value0
      let v ← option.convertVal raw
      .ok { ctx with keyword := setk ctx.keyword option.asSnakeCase v }

/-- One pair of the `handle_short_option_token` loop (`clap/parser.py`,
lines 447-465): look the flag up (miss: `invalid option`), rebuild a
long-option token `--<kebab-name>=<value>` (the value is never `None`,
so `=` is always appended) and re-handle it. -/
def shortPairHandle (flag value : String) (nt : Option Token)
    (ctx : Ctx) : Except PErr Ctx :=
  match lookupAssoc ctx.command.allOptions flag with
  | Option.none => .error (.invalidOptionFlag flag)
  | some option =>
      handleLongOptionToken
        ⟨.longOption, "--" ++ option.asKebabCase ++ "=" ++ value⟩ nt ctx

/-- The interleaved consumption of the `from_short_option` generator by
`handle_short_option_token`: each yielded pair is handled before the
generator advances (so a handler error preempts a later generator
assert, and vice versa). -/
def handleShortGo (nt : Option Token) :
    List Char → Ctx → Except PErr Ctx
  | [], ctx => .ok ctx
  | c :: rest, ctx =>
      match rest with
      | [] =>
          if c.isAlpha then shortPairHandle (String.mk [c]) "" nt ctx
          else .error .assertionFailed
      | c2 :: rest2 =>
          if c2.isDigit then
            shortPairHandle (String.mk [c]) (String.mk rest) nt ctx
          else if c2 = '=' then
            shortPairHandle (String.mk [c]) (String.mk rest2) nt ctx
          else if c.isAlpha then do
            let ctx' ← shortPairHandle (String.mk [c]) "" nt ctx
            handleShortGo nt rest ctx'
          else .error .assertionFailed

/-- `handle_short_option_token`: iterate the generator over the token's
remainder (a bare `-` yields nothing, see
`Token.fromShortOptionPairs`). -/
def handleShortOptionToken (t : Token) (nt : Option Token) (ctx : Ctx) :
    Except PErr Ctx :=
  let remainder :=
    if t.isShortOption then t.value.data.drop 1 else t.value.data
  if remainder.isEmpty then .ok ctx
  else handleShortGo nt remainder ctx

/-- `handle_argument_token` (`clap/parser.py`, lines 468-491): against a
`SupportsCommands` node the literal is a subcommand lookup (miss:
`invalid command`) that replaces the active command while keeping the
accumulated binding state; against a leaf it is converted by the next
positional declaration (exhaustion: `too many arguments`). -/
def handleArgumentToken (t : Token) (_nt : Option Token) (ctx : Ctx) :
    Except PErr Ctx :=
  let value := t.fromArgument
  match ctx.command with
  | .group _ _ cmds =>
      match lookupAssoc cmds value with
      | some child => .ok { ctx with command := child }
      | Option.none => .error (.invalidCommand value)
  | .leaf _ _ args =>
      match args.get? ctx.positional.length with
      | Option.none => .error (.tooManyArguments value)
      | some argument => do
          let v ← argument.convertVal value
          .ok { ctx with positional := ctx.positional ++ [v] }

/-- `handle_deferred_tokens` (`clap/parser.py`, lines 406-417): pop the
queue front to front, dispatching on the token type with the next
queued token as lookahead; an ESCAPE or STDIN token would miss the
dispatch table (`KeyError`). -/
def handleDeferredTokens : List Token → Ctx → Except PErr Ctx
  | [], ctx => .ok ctx
  | t :: rest, ctx => do
      let nt := rest.head?
      let ctx' ←
        match t.tokenType with
        | .longOption => handleLongOptionToken t nt ctx
        | .shortOption => handleShortOptionToken t nt ctx
        | .argument => handleArgumentToken t nt ctx
        | _ => .error (.keyError "token_type")
      handleDeferredTokens rest ctx'

/-- Lines 228-233 of `ArgumentParser.parse`: walk `all_options.values()`
in insertion order (alias entries included) and bind each option's
default under its snake-cased name when unbound and not `MISSING`. -/
def fillDefaults : List (String × Opt) → List (String × Value) →
    List (String × Value)
  | [], kw => kw
  | (_, o) :: rest, kw =>
      if (lookupAssoc kw o.asSnakeCase).isSome || o.default = Value.missing
      then fillDefaults rest kw
      else fillDefaults rest (setk kw o.asSnakeCase o.default)

/-- Lines 235-238 of `ArgumentParser.parse`: for every bound keyword,
fetch its option from the active command's table (`KeyError` when the
key is not there), then validate `requires` and `conflicts` against the
bound key set. -/
def validateKeywords (allOptions : List (String × Opt))
    (keys : List String) : List String → Except PErr Unit
  | [] => .ok ()
  | k :: ks => do
      match lookupAssoc allOptions k with
      | Option.none => .error (.keyError k)
      | some o => do
          validateRequiresGo o.name keys o.requires
          validateConflictsGo o.name o.conflicts keys
          validateKeywords allOptions keys ks

/-- The scan loop of `ArgumentParser.parse` (lines 201-224): option
tokens are deferred (with the immediately following argument token
buffered as a possible value and the cursor advanced past it);
argument tokens are handled at once; the escape token is skipped;
stdin and any other token type raise `NotImplementedError`. -/
def parseLoop (escIdx : Nat) :
    List String → Nat → Ctx → List Token →
    Except PErr (Ctx × List Token)
  | [], _, ctx, deferred => .ok (ctx, deferred)
  | [s], i, ctx, deferred => do
      let token ← tokenAt escIdx i s
      if token.isOption then
        .ok (ctx, deferred ++ [token])
      else do
        let isArg ← token.isArgumentE
        if isArg then do
          let ctx' ← handleArgumentToken token Option.none ctx
          .ok (ctx', deferred)
        else if token.isEscape then .ok (ctx, deferred)
        else .error .notImplemented
  | s :: s2 :: rest2, i, ctx, deferred => do
      let token ← tokenAt escIdx i s
      if token.isOption then do
        let deferred := deferred ++ [token]
        let nt ← tokenAt escIdx (i + 1) s2
        if nt.isOption then
          parseLoop escIdx (s2 :: rest2) (i + 1) ctx deferred
        else do
          let isArg ← nt.isArgumentE
          if isArg then
            parseLoop escIdx rest2 (i + 2) ctx (deferred ++ [nt])
          else parseLoop escIdx (s2 :: rest2) (i + 1) ctx deferred
      else do
        let isArg ← token.isArgumentE
        if isArg then do
          let ctx' ← handleArgumentToken token Option.none ctx
          parseLoop escIdx (s2 :: rest2) (i + 1) ctx' deferred
        else if token.isEscape then
          parseLoop escIdx (s2 :: rest2) (i + 1) ctx deferred
        else .error .notImplemented

/-- The observable outcome of a `parse` call that did not raise. -/
inductive Outcome where
  | helpShown (commandName : String)
  | invoked (commandName : String) (positional : List Value)
      (keyword : List (String × Value))
deriving DecidableEq, Repr

/-- `ArgumentParser.parse` (`clap/parser.py`, lines 177-244): lex
`args[1:]`, run the scan loop, flush the deferred queue once at end of
stream, fill unset defaults, validate `requires`/`conflicts` over the
bound keys, pop `help` (showing help when it is truthy or no arguments
were given), and otherwise invoke the now-active command with the
accumulated bindings. -/
def parse (parser : Node) (args : List String) : Except PErr Outcome := do
  let lexArgs := args.drop 1
  let escIdx := escapeIndex lexArgs
  let (ctx, deferred) ← parseLoop escIdx lexArgs 0 ⟨parser, [], []⟩ []
  let ctx ← handleDeferredTokens deferred ctx
  let kw := fillDefaults ctx.command.allOptions ctx.keyword
  let _ ← validateKeywords ctx.command.allOptions (keysOf kw) (keysOf kw)
  let (helpVal, kw') := popk kw "help" (Value.bool false)
  if truthy helpVal || lexArgs.isEmpty then .ok (.helpShown ctx.command.name)
  else .ok (.invoked ctx.command.name ctx.positional kw')

end Spec2Proof.Clap

namespace Spec2Proof.ClapS

/-! ## `src/clap/option.py`, `abc.py`, `parser.py` -/

/-- `Option` (`src/clap/option.py`): name, brief, target type, default
value (`Value.missing` models `MISSING`), optional short alias. -/
structure OptS where
  name : String
  brief : String
  targetType : Ty
  defaultValue : Value
  short : Option String
deriving DecidableEq, Repr

/-- Modelled from the spec: `src/clap/parser.py` imports `snake_case`
from a `util` module absent from the snapshot; per the spec the
bound-option map is keyed by the option's (snake-cased) name. -/
def snakeCase (s : String) : String :=
  String.mk (s.data.map (fun c => if c = '-' then '_' else c))

/-- Modelled from the spec: `_handle_token_long` binds under
`option.parameter_name`, a property the snapshot's `Option` never
defines; per the spec's `boundOptions: map<name, value>` it is the
option's snake-cased name. -/
def OptS.parameterName (o : OptS) : String := snakeCase o.name

/-- A positional declaration (`src/clap/positional.py`). -/
structure ArgS where
  name : String
  targetType : Ty
  defaultValue : Value
deriving DecidableEq, Repr

/-- A command node of the `src/clap` snapshot: either a
`SupportsSubcommands` (Application/Group) or a
`SupportsPositionalArguments` (Script/Subcommand) — the protocols state
a node is never both. -/
inductive CmdS where
  | subcommands (name : String) (allOptions : List (String × OptS))
      (allSubcommands : List (String × CmdS))
      (invokeWithoutSubcommand : Bool)
  | positionals (name : String) (allOptions : List (String × OptS))
      (positionalArguments : List ArgS)

/-- The node's name. -/
def CmdS.nameS : CmdS → String
  | .subcommands n _ _ _ => n
  | .positionals n _ _ => n

/-- The node's `all_options` mapping. -/
def CmdS.allOptionsS : CmdS → List (String × OptS)
  | .subcommands _ os _ _ => os
  | .positionals _ os _ => os

/-- `SupportsOptions.options`: the options excluding alias keys. -/
def CmdS.optionsS (c : CmdS) : List OptS :=
  ((c.allOptionsS).filter (fun kv => kv.1 = kv.2.name)).map Prod.snd

/-- Whether the node matches `SupportsSubcommands`. -/
def CmdS.isSubcommands : CmdS → Bool
  | .subcommands _ _ _ _ => true
  | .positionals _ _ _ => false

/-- `invoke_without_subcommand` (`False` for positional nodes, which
never reach the checks that read it). -/
def CmdS.invokeWithout : CmdS → Bool
  | .subcommands _ _ _ b => b
  | .positionals _ _ _ => false

/-- Modelled from the spec: `_handle_token` asserts
`token.is_long_option()` / `token.is_short_option()`, methods the
snapshot's `Token` does not define; per the spec a LongOption token's
literal starts with `--` and a ShortOptionStack token's with `-`. -/
def Token.isLongOptionM (t : Token) : Bool :=
  t.kind = TokenKind.long && strStarts t.literal "--"

/-- Modelled from the spec: see `Token.isLongOptionM`. -/
def Token.isShortOptionM (t : Token) : Bool :=
  t.kind = TokenKind.short && strStarts t.literal "-"

/-- A direct constructor call `argument.target_type(argument_raw)`
(`src/clap/parser.py`, line 280): `int` raises `ValueError` on a bad
literal, `bool` is Python truthiness of a nonempty string, `str` is the
identity, and non-callable descriptors raise `TypeError`. -/
def tyCtorCall (ty : Ty) (raw : String) : Except ErrS Value :=
  match ty with
  | .base .int =>
      match pyIntParse raw with
      | some n => .ok (.int n)
      | Option.none =>
          .error (.valueError ("invalid literal for int: '" ++ raw ++ "'"))
  | .base .str => .ok (.str raw)
  | .base .bool => .ok (.bool (raw ≠ ""))
  | .base .noneType => .error (.typeError "NoneType takes no arguments")
  | .union _ => .error (.typeError "union type is not callable")

/-- `ParsedArgs` (`src/clap/parser.py`, lines 32-38). -/
structure StateS where
  command : CmdS
  args : List Value
  kwargs : List (String × Value)

/-- `ParserContext` (`src/clap/parser.py`, lines 41-45): the running
state plus the buffer of finished per-node states. -/
structure CtxS where
  state : StateS
  buffer : List StateS

/-- `_handle_token_long` (`src/clap/parser.py`, lines 184-215): drop a
non-ARGUMENT lookahead; resolve the key against the active node
(`unknown option`); with no inline value, a `bool` target takes the
string of the negated default, otherwise the lookahead is required
(`expected value for option`) and consumed; convert and bind under the
parameter name. Returns the new context and how many input tokens were
consumed. -/
def handleTokenLongS (tok : Token) (ntIn : Option Token) (ctx : CtxS) :
    Except ErrS (CtxS × Nat) := do
  let nt :=
    match ntIn with
    | some u => if u.kind ≠ TokenKind.argument then Option.none else some u
    | Option.none => Option.none
  if !tok.isLongOptionM then .error .assertionFailed
  else
    let optionRaw := tok.asLongOption
    match lookupAssoc ctx.state.command.allOptionsS optionRaw.1 with
    | Option.none =>
        .error (.argumentError ("unknown option: " ++ optionRaw.1))
    | some option => do
        let (valueRaw, consumed) ←
          if optionRaw.2 = "" then
            if option.targetType = Ty.base .bool then
              pure (pyStrOfBool (pyNot option.defaultValue), 0)
            else
              match nt with
              | Option.none =>
                  .error (.argumentError ("expected value for option '"
                    ++ option.name ++ "'"))
              | some u =>
                  if !u.isArgument then .error .assertionFailed
                  else pure (u.asArgument, 1)
          else pure (optionRaw.2, 0)
        match convertS valueRaw option.targetType option.defaultValue with
        | .error e => .error (.argumentError (renderConvErr e))
        | .ok v =>
            .ok ({ ctx with state := { ctx.state with
              kwargs := setk ctx.state.kwargs option.parameterName v } },
              consumed)

/-- The per-pair body of `_handle_token_short` (`src/clap/parser.py`,
lines 226-242): resolve the flag (`unknown option`), rebuild a long
literal `--<name with - replaced by _>` plus `=<value>` when the value
is nonempty, and re-handle it as a long option. -/
def handleShortPairsS (nt : Option Token) :
    List (String × String) → CtxS → Nat → Except ErrS (CtxS × Nat)
  | [], ctx, consumed => .ok (ctx, consumed)
  | (key, value) :: rest, ctx, consumed => do
      match lookupAssoc ctx.state.command.allOptionsS key with
      | Option.none => .error (.argumentError ("unknown option: " ++ key))
      | some option => do
          let literal := "--" ++ snakeCase option.name
            ++ (if value ≠ "" then "=" ++ value else "")
          let (ctx', c) ← handleTokenLongS ⟨TokenKind.long, literal⟩ nt ctx
          handleShortPairsS nt rest ctx' (consumed + c)

/-- `_handle_token_short` (`src/clap/parser.py`, lines 218-242):
materialize the stack's pairs (`as_short_option` is an ordinary
function) and handle each in turn. -/
def handleTokenShortS (tok : Token) (nt : Option Token) (ctx : CtxS) :
    Except ErrS (CtxS × Nat) := do
  if !tok.isShortOptionM then .error .assertionFailed
  else do
    let pairs ← tok.asShortOption
    handleShortPairsS nt pairs ctx 0

/-- `_handle_token_argument` (`src/clap/parser.py`, lines 245-283):
against a `SupportsSubcommands` node the literal is a subcommand lookup
(miss: `... is not a valid command`) that pushes the finished state and
starts a fresh one; against a positional node it is converted by the
next declaration's constructor (exhaustion: `expected N argument(s),
got M`). -/
def handleTokenArgumentS (tok : Token) (ctx : CtxS) : Except ErrS CtxS := do
  if !tok.isArgument then .error .assertionFailed
  else
    let raw := tok.asArgument
    match ctx.state.command with
    | .subcommands _ _ subs _ =>
        match lookupAssoc subs raw with
        | Option.none =>
            .error (.argumentError ("'" ++ raw ++ "' is not a valid command"))
        | some cmd =>
            .ok { buffer := ctx.buffer ++ [ctx.state],
                  state := ⟨cmd, [], []⟩ }
    | .positionals _ _ posArgs =>
        match posArgs.get? ctx.state.args.length with
        | Option.none =>
            let expected := posArgs.length
            let actual := ctx.state.args.length + 1
            let plural := if expected = 1 then "" else "s"
            .error (.argumentError ("expected " ++ toString expected
              ++ " argument" ++ plural ++ ", got " ++ toString actual))
        | some argument => do
            let v ← tyCtorCall argument.targetType raw
            .ok { ctx with state := { ctx.state with
              args := ctx.state.args ++ [v] } }

/-- The leaf branch of `_handle_token_escape` (`src/clap/parser.py`,
lines 286-295): drain the iterator, classifying each literal and
passing the token to the argument handler (whose
`assert token.is_argument()` fails for any option-looking literal). -/
def escapeConsumeS : List String → CtxS → Except ErrS CtxS
  | [], ctx => .ok ctx
  | s :: rest, ctx => do
      let k ← TokenKind.fromString s
      let ctx' ← handleTokenArgumentS ⟨k, s⟩ ctx
      escapeConsumeS rest ctx'

/-- The `for token in tokens` loop of `_parse_app` (`src/clap/parser.py`,
lines 151-157), with `tokens.peek()` classified eagerly each step:
dispatch on the token kind; the handlers may consume lookahead tokens;
the escape token does nothing on a subcommands node (`TODO` branch) and
drains the rest on a positionals node; stdin raises
`NotImplementedError`; when the iterator ends, the running state joins
the buffer. -/
def parseAppLoop : List String → Nat → CtxS → Except ErrS (List StateS)
  | [], _, ctx => .ok (ctx.buffer ++ [ctx.state])
  | _ :: rest, Nat.succ skip, ctx => parseAppLoop rest skip ctx
  | s :: rest, 0, ctx => do
      let kind ← TokenKind.fromString s
      let tok : Token := ⟨kind, s⟩
      let nt ←
        match rest with
        | [] => pure Option.none
        | s2 :: _ => do
            let k2 ← TokenKind.fromString s2
            pure (some (Token.mk k2 s2))
      match kind with
      | .long => do
          let (ctx', consumed) ← handleTokenLongS tok nt ctx
          parseAppLoop rest consumed ctx'
      | .short => do
          let (ctx', consumed) ← handleTokenShortS tok nt ctx
          parseAppLoop rest consumed ctx'
      | .argument => do
          let ctx' ← handleTokenArgumentS tok ctx
          parseAppLoop rest 0 ctx'
      | .escape =>
          (match ctx.state.command with
          | .subcommands _ _ _ _ => parseAppLoop rest 0 ctx
          | .positionals _ _ _ => do
              let ctx' ← escapeConsumeS rest ctx
              .ok (ctx'.buffer ++ [ctx'.state]))
      | .stdin => .error .notImplemented

/-- `_parse_app` (`src/clap/parser.py`, lines 137-158): the `skip`
counter models the iterator positions a handler consumed as lookahead
values (`next(ctx.tokens)`). -/
def parseApp (app : CmdS) (input : List String) :
    Except ErrS (List StateS) :=
  parseAppLoop input 0 ⟨⟨app, [], []⟩, []⟩

/-- What a `parse` call (`src/clap/parser.py`, lines 49-134) does
observably: exit with a printed stderr line, print a help message and
return `None`, print usage and exit 1, print help and exit 1 after the
loop, or return after invoking the buffered commands. -/
inductive OutcomeS where
  | exited (code : Nat) (stderrLine : String)
  | printedHelp (commandName : String)
  | usageExited (commandName : String)
  | helpExited (commandName : String)
  | returned (invocations : List (String × List Value × List (String × Value)))

/-- The required-argument check of `parse` (lines 80-99): fewer bound
positionals than required declarations, or an alias-filtered option
with a `MISSING` default whose snake-cased name is unbound. -/
def requiredCheckFails (st : StateS) : Bool :=
  let posArgs :=
    match st.command with
    | .positionals _ _ pa => pa
    | .subcommands _ _ _ _ => []
  let requiredCount :=
    (posArgs.filter (fun a => a.defaultValue = Value.missing)).length
  decide (st.args.length < requiredCount)
    || st.command.optionsS.any (fun o =>
        o.defaultValue = Value.missing
          && (lookupAssoc st.kwargs (snakeCase o.name)).isNone)

/-- The `for result in results` loop of `parse` (lines 65-121): popping
a truthy `help` prints the node's help and returns; a subcommands node
without `invoke_without_subcommand` is skipped; a failed
required-argument check prints usage and exits 1; otherwise the command
is invoked with the bound state. -/
def processGo :
    List StateS → List (String × List Value × List (String × Value)) →
    Sum OutcomeS (List (String × List Value × List (String × Value)))
  | [], invocs => .inr invocs
  | st :: rest, invocs =>
      let (helpVal, kwargs') := popk st.kwargs "help" (Value.bool false)
      let st : StateS := { st with kwargs := kwargs' }
      if truthy helpVal then .inl (.printedHelp st.command.nameS)
      else if st.command.isSubcommands && !st.command.invokeWithout then
        processGo rest invocs
      else if requiredCheckFails st then .inl (.usageExited st.command.nameS)
      else
        processGo rest (invocs ++ [(st.command.nameS, st.args, st.kwargs)])

/-- `parse` (`src/clap/parser.py`, lines 49-134): `_parse_app` inside a
`try` whose `except ArgumentError` prints `error: <message>` to stderr
and calls `sys.exit(1)` — any other exception propagates; then the
result loop runs, and its `for ... else` clause prints help and exits 1
when the last visited node is a subcommands node that cannot be invoked
without a subcommand. -/
def parse (app : CmdS) (input : List String) : Except ErrS OutcomeS :=
  match parseApp app input with
  | .error (.argumentError msg) => .ok (.exited 1 ("error: " ++ msg))
  | .error e => .error e
  | .ok results =>
      if results.isEmpty then .error .assertionFailed
      else
        match processGo results [] with
        | .inl outcome => .ok outcome
        | .inr invocs =>
            match results.getLast? with
            | some lastSt =>
                if lastSt.command.isSubcommands
                    && !lastSt.command.invokeWithout then
                  .ok (.helpExited lastSt.command.nameS)
                else .ok (.returned invocs)
            | Option.none => .error .assertionFailed

end Spec2Proof.ClapS

namespace Spec2Proof.ClapS

/-! ## `src/clap/abc.py` — `SupportsSubcommands.add_subcommand` -/

/-- A registered subcommand as `add_subcommand`/`remove_subcommand`
observe it: name, alias list, and the parent back-reference (modelled
by the parent's name). -/
structure Cmd where
  name : String
  aliases : List String
  parent : Option String
deriving DecidableEq, Repr

/-- `remove_subcommand` (`src/clap/abc.py`, lines 136-171):
`all_subcommands.pop(name)` has no default, so a missing key raises
`KeyError`; with aliases present, popping by an alias removes that
alias from the command's list, while popping by name also pops every
alias key (with a `None` default — even keys that belong to a different
command). -/
def removeSubcommand (reg : List (String × Cmd)) (name : String) :
    Except ErrS (List (String × Cmd) × Cmd) :=
  match lookupAssoc reg name with
  | Option.none => .error (.keyError name)
  | some command =>
      let reg := delk reg name
      if command.aliases.length < 1 then .ok (reg, command)
      else if command.aliases.contains name then
        .ok (reg, { command with aliases := command.aliases.erase name })
      else .ok (command.aliases.foldl (fun r a => delk r a) reg, command)

/-- Python `aliases[index::-1]` (a reversed slice from `index` down to
the front; a start of `-1` denotes the last element). -/
def pySliceRevFrom {α : Type} (l : List α) (i : Int) : List α :=
  let j : Int := if i < 0 then (l.length : Int) + i else i
  if j < 0 then [] else (l.take (j.toNat + 1)).reverse

/-- The rollback loop of `add_subcommand` (lines 130-131): remove each
already-added alias in reverse insertion order; a `KeyError` from
`remove_subcommand` propagates, leaving the registry as it stands. -/
def removeAliasLoop : List String → List (String × Cmd) →
    List (String × Cmd) × Option ErrS
  | [], reg => (reg, Option.none)
  | a :: rest, reg =>
      match removeSubcommand reg a with
      | .error e => (reg, some e)
      | .ok (reg', _) => removeAliasLoop rest reg'

/-- The alias-insertion loop of `add_subcommand` (lines 115-134): each
alias is inserted unless taken; on a collision the command (and, via
`remove_subcommand`, every alias key including the pre-existing
colliding one) is removed, the reversed slice of earlier aliases is
removed again, the parent is restored and
`SubcommandAlreadyExistsError` is raised. -/
def addSubcommandAliases (previousParent : Option String)
    (aliases : List String) (sub : Cmd) :
    List String → List (String × Cmd) →
    List (String × Cmd) × Cmd × Option ErrS
  | [], reg => (reg, sub, Option.none)
  | al :: rest, reg =>
      match lookupAssoc reg al with
      | Option.none => addSubcommandAliases previousParent aliases sub rest
          (setk reg al sub)
      | some _ =>
          match removeSubcommand reg sub.name with
          | .error e => (reg, sub, some e)
          | .ok (reg1, _) =>
              let index : Int := (aliases.indexOf al : Int) - 1
              let reversedAliases := pySliceRevFrom aliases index
              match removeAliasLoop reversedAliases reg1 with
              | (reg2, some e) => (reg2, sub, some e)
              | (reg2, Option.none) =>
                  (reg2, { sub with parent := previousParent },
                    some (.subcommandAlreadyExists al))

/-- `add_subcommand` (`src/clap/abc.py`, lines 83-134): adopt the
subcommand (saving the previous parent), insert it under its name
(collision: restore the parent and raise), then insert each alias via
`addSubcommandAliases`.  Returns the registry as left behind, the
subcommand object's final state, and the raised error, if any. -/
def addSubcommand (selfName : String) (reg : List (String × Cmd))
    (subIn : Cmd) : List (String × Cmd) × Cmd × Option ErrS :=
  let previousParent := subIn.parent
  let sub := { subIn with parent := some selfName }
  match lookupAssoc reg sub.name with
  | some _ =>
      (reg, { sub with parent := previousParent },
        some (.subcommandAlreadyExists sub.name))
  | Option.none =>
      let reg := setk reg sub.name sub
      addSubcommandAliases previousParent sub.aliases sub sub.aliases reg

end Spec2Proof.ClapS

namespace Spec2Proof

/-! ## Concrete fixtures used by the claim theorems -/

namespace Clap

/-- `DefaultHelp` (`clap/options.py`, lines 265-272). -/
def DefaultHelp : Opt :=
  ⟨"help", "Show this message and exit.", .base .bool, .bool false, 0, 0,
    some "h", [], []⟩

/-- A boolean `verbose` option declared as conflicting with `quiet`. -/
def verboseOpt : Opt :=
  ⟨"verbose", "Verbose output.", .base .bool, .bool false, 0, 1,
    Option.none, [], ["quiet"]⟩

/-- A boolean `quiet` option. -/
def quietOpt : Opt :=
  ⟨"quiet", "Quiet output.", .base .bool, .bool false, 0, 1,
    Option.none, [], []⟩

/-- A boolean `verbose` option with no constraint sets. -/
def plainVerboseOpt : Opt :=
  ⟨"verbose", "Verbose output.", .base .bool, .bool false, 0, 1,
    Option.none, [], []⟩

/-- Root parser for the conflict scenario: the default help option plus
`verbose` (conflicting with `quiet`) and `quiet`. -/
def conflictRoot : Node :=
  .group "prog"
    [("help", DefaultHelp), ("h", DefaultHelp), ("verbose", verboseOpt),
      ("quiet", quietOpt)] []

/-- Leaf `sub` taking one string positional, carrying its own
`verbose`. -/
def subNode : Node :=
  .leaf "sub"
    [("help", DefaultHelp), ("h", DefaultHelp), ("verbose", plainVerboseOpt)]
    [⟨"arg", .base .str, Value.missing⟩]

/-- Root parser with subcommand `sub` and option `verbose`. -/
def deferRoot : Node :=
  .group "prog"
    [("help", DefaultHelp), ("h", DefaultHelp), ("verbose", plainVerboseOpt)]
    [("sub", subNode)]

/-- Leaf `run` taking one string positional. -/
def runNode : Node :=
  .leaf "run" [("help", DefaultHelp), ("h", DefaultHelp)]
    [⟨"target", .base .str, Value.missing⟩]

/-- Root parser with subcommand `run`. -/
def escapeRoot : Node :=
  .group "prog" [("help", DefaultHelp), ("h", DefaultHelp)] [("run", runNode)]

/-- A string option `alpha` for the order-independence scenario. -/
def alphaOpt : Opt :=
  ⟨"alpha", "An option.", .base .str, Value.missing, 0, 1, Option.none,
    [], []⟩

/-- A boolean option `beta` for the order-independence scenario. -/
def betaOpt : Opt :=
  ⟨"beta", "An option.", .base .bool, .bool false, 0, 1, Option.none, [], []⟩

/-- A node carrying the distinct options `alpha` and `beta`. -/
def orderNode : Node :=
  .group "prog" [("alpha", alphaOpt), ("beta", betaOpt)] []

/-- An option `alpha` registered with alias `a`. -/
def alphaAliased : Opt :=
  ⟨"alpha", "An option.", .base .str, Value.missing, 0, 1, some "a", [], []⟩

/-- An option `beta` whose alias `a` collides with `alpha`'s. -/
def betaColliding : Opt :=
  ⟨"beta", "An option.", .base .str, Value.missing, 0, 1, some "a", [], []⟩

/-- The registry holding `alpha` under its name and its alias. -/
def alphaReg : List (String × Opt) :=
  [("alpha", alphaAliased), ("a", alphaAliased)]

/-- The option record `mkOption` builds for a boolean `flag` with an
unset default. -/
def mkBoolOptExpected : Opt :=
  ⟨"flag", "A flag.", .base .bool, .bool false, 0, 1, Option.none, [], []⟩

/-- The key/value resolution a long-option token receives during the
deferred flush when the following deferred token is not an ARGUMENT
token: lookup by the token's snake-cased literal, raw-value computation
with no usable lookahead, conversion, and the option's snake-cased name
as the bound key (`handleLong_eq_longResolve` proves this is exactly
what `handle_long_option_token` commits in that situation). -/
def longResolve (cmd : Node) (t : Token) : Except PErr (String × Value) :=
  match lookupAssoc cmd.allOptions t.asSnakeCase with
  | Option.none => .error (.invalidOptionTok t.value)
  | some option => do
      let raw ← longOptionRawValue option Option.none (t.fromLongOption).2
      let v ← option.convertVal raw
      .ok (option.asSnakeCase, v)

end Clap

namespace ClapS

/-- `DEFAULT_HELP` (`src/clap/option.py`, lines 63-69). -/
def DefaultHelpS : OptS :=
  ⟨"help", "Display this help message and exit", .base .bool, .bool false,
    some "h"⟩

/-- An application node with only the default help option. -/
def appS : CmdS :=
  .subcommands "app" [("help", DefaultHelpS), ("h", DefaultHelpS)] [] false

/-- Registered subcommand `deploy` with alias `d`. -/
def deployCmd : Cmd := ⟨"deploy", ["d"], Option.none⟩

/-- New subcommand `run` whose alias `d` collides with `deploy`'s. -/
def runCmd : Cmd := ⟨"run", ["d"], Option.none⟩

/-- The registry holding `deploy` under its name and its alias. -/
def deployReg : List (String × Cmd) :=
  [("deploy", deployCmd), ("d", deployCmd)]

end ClapS

/-- The short-stack split the claim's wording describes, taken
literally: a character followed by a digit absorbs the remaining
*digits* (the longest digit run) as its value and ends the scan; a
character followed by `=` absorbs the remainder; otherwise the
character is a zero-value flag. Stated only to be compared with the
source functions. -/
def claimedShortSplit : List Char → List (String × String)
  | [] => []
  | c :: rest =>
      match rest with
      | [] => [(String.mk [c], "")]
      | c2 :: rest2 =>
          if c2.isDigit then
            [(String.mk [c], String.mk ((c2 :: rest2).takeWhile Char.isDigit))]
          else if c2 = '=' then [(String.mk [c], String.mk rest2)]
          else (String.mk [c], "") :: claimedShortSplit rest

end Spec2Proof

namespace Spec2Proof

/-! ## Helper lemmas -/

/-- An alphabetic ASCII character is not a digit. -/
theorem isDigit_false_of_isAlpha {c : Char} (h : c.isAlpha = true) :
    c.isDigit = false := by
  simp [Char.isAlpha, Char.isUpper, Char.isLower, Char.isDigit,
    UInt32.le_def, UInt32.lt_def, Fin.le_def, Fin.lt_def,
    BitVec.le_def, BitVec.lt_def] at h ⊢
  omega

/-- A digit is not alphabetic. -/
theorem isAlpha_false_of_isDigit {c : Char} (h : c.isDigit = true) :
    c.isAlpha = false := by
  simp [Char.isAlpha, Char.isUpper, Char.isLower, Char.isDigit,
    UInt32.le_def, UInt32.lt_def, Fin.le_def, Fin.lt_def,
    BitVec.le_def, BitVec.lt_def] at h ⊢
  omega

/-- An alphabetic character is not `=`. -/
theorem ne_eq_char_of_isAlpha {c : Char} (h : c.isAlpha = true) : c ≠ '=' := by
  intro he
  subst he
  exact absurd h (by decide)

/-- An alphabetic character is not `-`. -/
theorem ne_dash_of_isAlpha {c : Char} (h : c.isAlpha = true) : c ≠ '-' := by
  intro he
  subst he
  exact absurd h (by decide)

/-- A digit is not `-`. -/
theorem ne_dash_of_isDigit {c : Char} (h : c.isDigit = true) : c ≠ '-' := by
  intro he
  subst he
  exact absurd h (by decide)

/-- Looking a key up after `setk`. -/
theorem lookupAssoc_setk {α : Type} (m : List (String × α)) (key k : String)
    (v : α) :
    lookupAssoc (setk m key v) k =
      if key = k then some v else lookupAssoc m k := by
  induction m with
  | nil => simp [setk, lookupAssoc]
  | cons kv rest ih =>
      obtain ⟨k0, w⟩ := kv
      by_cases h0 : k0 = key
      · subst h0
        by_cases hk : k0 = k <;> simp [setk, lookupAssoc, hk]
      · by_cases hk : k0 = k
        · subst hk
          have : key ≠ k0 := fun h => h0 h.symm
          simp [setk, lookupAssoc, h0, this]
        · simp [setk, lookupAssoc, h0, hk, ih]

/-- Two `setk` updates under distinct keys commute up to lookup. -/
theorem lookupAssoc_setk_comm {α : Type} (m : List (String × α))
    (k1 k2 : String) (v1 v2 : α) (hne : k1 ≠ k2) (k : String) :
    lookupAssoc (setk (setk m k1 v1) k2 v2) k =
      lookupAssoc (setk (setk m k2 v2) k1 v1) k := by
  simp [lookupAssoc_setk]
  by_cases h2 : k2 = k
  · subst h2
    have : ¬k1 = k2 := hne
    simp [this]
  · by_cases h1 : k1 = k <;> simp [h1, h2]

end Spec2Proof

namespace Spec2Proof

/-- A non-`NoneType` union candidate that converts successfully ends
the union loop with its value. -/
theorem convertUnionGo_cons_ok {all rest : List Base} {b : Base}
    {arg : String} {d v : Value} (hb : b ≠ Base.noneType)
    (h : Clap.actualConversion b arg = .ok v) :
    Clap.convertUnionGo all arg d (b :: rest) = .ok v := by
  simp [Clap.convertUnionGo, hb, h]

/-- A non-`NoneType` union candidate that fails is skipped. -/
theorem convertUnionGo_cons_err {all rest : List Base} {b : Base}
    {arg : String} {d : Value} {e : ConvErr} (hb : b ≠ Base.noneType)
    (h : Clap.actualConversion b arg = .error e) :
    Clap.convertUnionGo all arg d (b :: rest) =
      Clap.convertUnionGo all arg d rest := by
  simp [Clap.convertUnionGo, hb, h]

/-- A run of failing non-`NoneType` candidates is skipped wholesale. -/
theorem convertUnionGo_skip {all : List Base} {arg : String} {d : Value} :
    ∀ {pre rest : List Base},
      (∀ b ∈ pre, b ≠ Base.noneType ∧
        ∃ e, Clap.actualConversion b arg = .error e) →
      Clap.convertUnionGo all arg d (pre ++ rest) =
        Clap.convertUnionGo all arg d rest := by
  intro pre
  induction pre with
  | nil => intro rest _; rfl
  | cons b pre ih =>
      intro rest h
      obtain ⟨hb, e, he⟩ := h b (by simp)
      rw [List.cons_append, convertUnionGo_cons_err hb he]
      exact ih (fun b' hb' => h b' (by simp [hb']))

/-- Reaching the `NoneType` candidate returns `None` when a default is
set and the `MISSING` sentinel when it is not. -/
theorem convertUnionGo_noneHead {all rest : List Base} {arg : String}
    {d : Value} :
    Clap.convertUnionGo all arg d (Base.noneType :: rest) =
      .ok (if d ≠ Value.missing then Value.none else d) := by
  simp [Clap.convertUnionGo]

/-- A LONG token is never an ARGUMENT token. -/
theorem isArgumentE_long {u : Clap.Token} (h : u.tokenType = .longOption) :
    u.isArgumentE = .ok false := by
  simp [Clap.Token.isArgumentE, h]

/-- The lookahead is ignored by the raw-value computation when it is a
LONG token. -/
theorem longOptionRawValue_nonArg (o : Clap.Opt) (u : Clap.Token)
    (v0 : String) (h : u.tokenType = .longOption) :
    Clap.longOptionRawValue o (some u) v0 =
      Clap.longOptionRawValue o Option.none v0 := by
  by_cases hv : v0 = ""
  · simp [Clap.longOptionRawValue, hv, isArgumentE_long h, Bind.bind,
      Except.bind, Pure.pure, Except.pure]
  · simp [Clap.longOptionRawValue, hv]

/-- With no usable lookahead (none, or a LONG token),
`handle_long_option_token` is exactly `longResolve` committed into the
keyword map. -/
theorem handleLong_eq_longResolve (t : Clap.Token) (nt : Option Clap.Token)
    (ctx : Clap.Ctx)
    (hnt : nt = Option.none ∨ ∃ u, nt = some u ∧ u.tokenType = .longOption) :
    Clap.handleLongOptionToken t nt ctx =
      (Clap.longResolve ctx.command t).map
        (fun kv => { ctx with keyword := setk ctx.keyword kv.1 kv.2 }) := by
  have hraw : ∀ o : Clap.Opt,
      Clap.longOptionRawValue o nt (t.fromLongOption).2 =
        Clap.longOptionRawValue o Option.none (t.fromLongOption).2 := by
    rcases hnt with h | ⟨u, rfl, hu⟩
    · subst h; intro o; rfl
    · intro o; exact longOptionRawValue_nonArg o u _ hu
  unfold Clap.handleLongOptionToken Clap.longResolve
  cases hl : lookupAssoc ctx.command.allOptions t.asSnakeCase with
  | none => simp [Except.map]
  | some o =>
      simp [hraw o, Bind.bind, Except.bind]
      cases hr : Clap.longOptionRawValue o Option.none (t.fromLongOption).2 with
      | error e => simp [Except.map]
      | ok raw =>
          cases hc : o.convertVal raw with
          | error e => simp [hc, Except.map]
          | ok v => simp [hc, Except.map]

end Spec2Proof

namespace Spec2Proof

/-- An all-alphabetic stack splits into zero-value flags
(`src/clap/token.py` scan). -/
theorem asShortOptionGo_flags :
    ∀ ks : List Char, ks ≠ [] → ks.all Char.isAlpha = true →
      ClapS.asShortOptionGo ks = .ok (ks.map fun c => (String.mk [c], ""))
  | [], h, _ => absurd rfl h
  | [c], _, _ => by simp [ClapS.asShortOptionGo]
  | c :: c2 :: rest, _, hall => by
      have h2 : c2.isAlpha = true := by
        simp [List.all_cons] at hall
        exact hall.2.1
      have ih := asShortOptionGo_flags (c2 :: rest) (by simp)
        (by simp [List.all_cons] at hall ⊢; exact hall.2)
      unfold ClapS.asShortOptionGo
      rw [ih]
      simp [h2, Bind.bind, Except.bind]

/-- An all-alphabetic stack splits into zero-value flags
(`clap/lexer.py` generator scan). -/
theorem fromShortOptionGo_flags :
    ∀ ks : List Char, ks ≠ [] → ks.all Char.isAlpha = true →
      Clap.fromShortOptionGo ks = .ok (ks.map fun c => (String.mk [c], ""))
  | [], h, _ => absurd rfl h
  | [c], _, hall => by
      have hc : c.isAlpha = true := by simpa using hall
      simp [Clap.fromShortOptionGo, hc]
  | c :: c2 :: rest, _, hall => by
      have hc : c.isAlpha = true := by
        simp [List.all_cons] at hall
        exact hall.1
      have h2 : c2.isAlpha = true := by
        simp [List.all_cons] at hall
        exact hall.2.1
      have ih := fromShortOptionGo_flags (c2 :: rest) (by simp)
        (by simp [List.all_cons] at hall ⊢; exact hall.2)
      unfold Clap.fromShortOptionGo
      rw [ih]
      simp [hc, isDigit_false_of_isAlpha h2, ne_eq_char_of_isAlpha h2,
        Bind.bind, Except.bind]

/-- A digit successor absorbs the whole (wholly numeric) rest and ends
the `src/clap` scan. -/
theorem asShortOptionGo_digit {c c2 : Char} {rest : List Char}
    (h2 : c2.isDigit = true) (hall : (c2 :: rest).all Char.isDigit = true) :
    ClapS.asShortOptionGo (c :: c2 :: rest) =
      .ok [(String.mk [c], String.mk (c2 :: rest))] := by
  simp [ClapS.asShortOptionGo, isAlpha_false_of_isDigit h2, h2,
    pyIsNumeric, hall]

/-- A digit successor absorbs the whole rest — digits or not — and ends
the `clap/lexer.py` scan. -/
theorem fromShortOptionGo_digit {c c2 : Char} {rest : List Char}
    (h2 : c2.isDigit = true) :
    Clap.fromShortOptionGo (c :: c2 :: rest) =
      .ok [(String.mk [c], String.mk (c2 :: rest))] := by
  simp [Clap.fromShortOptionGo, h2]

/-- An `=` successor absorbs the remainder after it and ends the
`src/clap` scan. -/
theorem asShortOptionGo_eq_value (c : Char) (v : List Char) :
    ClapS.asShortOptionGo (c :: '=' :: v) =
      .ok [(String.mk [c], String.mk v)] := by
  have h1 : ('=' : Char).isAlpha = false := by decide
  have h2 : ('=' : Char).isDigit = false := by decide
  simp [ClapS.asShortOptionGo, h1, h2]

/-- An `=` successor absorbs the remainder after it and ends the
`clap/lexer.py` scan. -/
theorem fromShortOptionGo_eq_value (c : Char) (v : List Char) :
    Clap.fromShortOptionGo (c :: '=' :: v) =
      .ok [(String.mk [c], String.mk v)] := by
  have h2 : ('=' : Char).isDigit = false := by decide
  simp [Clap.fromShortOptionGo, h2]

end Spec2Proof

namespace Spec2Proof

/-! ## Claim theorems -/

/-- C1 counterexample: against `deferRoot` (option `verbose` on the
root, subcommand `sub`), `prog --verbose sub arg` does not bind
`verbose` against the earlier node and proceed — the word `sub` is
buffered as a potential option value, so `arg` is looked up as a
subcommand of the root and the parse fails with `invalid command: arg`,
unlike `prog sub --verbose arg`, which succeeds; the two forms do not
bind identically. -/
theorem c1_counterexample :
    Clap.parse Clap.deferRoot ["prog", "--verbose", "sub", "arg"] =
      .error (.invalidCommand "arg") ∧
    Clap.parse Clap.deferRoot ["prog", "sub", "--verbose", "arg"] =
      .ok (.invoked "sub" [Value.str "arg"] [("verbose", Value.bool true)]) ∧
    (Except.error (Clap.PErr.invalidCommand "arg") ≠
      (.ok (.invoked "sub" [Value.str "arg"] [("verbose", Value.bool true)]) :
        Except Clap.PErr Clap.Outcome)) :=
  ⟨rfl, rfl, by simp⟩

/-- C1 (amended): the deferred-option flush runs once per parse call,
at end of the scan, against the node then active; an option token
buffers its immediately following positional token as a potential
value, so a flag immediately before the subcommand word (with nothing
after) is resolved during the final flush against the pre-switch node
and the buffered subcommand word then switches the node mid-flush,
while any further positional after the subcommand word is looked up
against the root during the scan and fails; flags written after the
subcommand word bind against the subcommand. -/
theorem c1_deferred_flush_amended :
    Clap.parse Clap.deferRoot ["prog", "--verbose", "sub"] =
      .ok (.invoked "sub" [] [("verbose", Value.bool true)]) ∧
    Clap.parse Clap.deferRoot ["prog", "--verbose", "sub", "arg"] =
      .error (.invalidCommand "arg") ∧
    Clap.parse Clap.deferRoot ["prog", "sub", "--verbose", "arg"] =
      .ok (.invoked "sub" [Value.str "arg"] [("verbose", Value.bool true)]) ∧
    Clap.parse Clap.deferRoot ["prog", "sub", "arg", "--verbose"] =
      .ok (.invoked "sub" [Value.str "arg"] [("verbose", Value.bool true)]) :=
  ⟨rfl, rfl, rfl, rfl⟩

/-- C2: a failed add due to alias collision does not leave the registry
as it was.  `add_subcommand` of `run` (alias `d`) into a registry
holding `deploy` under `deploy` and `d` deletes the pre-existing alias
entry `d` and raises `KeyError` (not the documented
`SubcommandAlreadyExistsError`); `add_option` of `beta` (alias `a`)
into a registry holding `alpha` under `alpha` and `a` likewise deletes
the pre-existing alias entry `a` while raising. -/
theorem c2_rollback_bug_eval :
    ClapS.addSubcommand "root" ClapS.deployReg ClapS.runCmd =
      ([("deploy", ClapS.deployCmd)],
        { ClapS.runCmd with parent := some "root" },
        some (.keyError "d")) ∧
    lookupAssoc ClapS.deployReg "d" = some ClapS.deployCmd ∧
    lookupAssoc
      (ClapS.addSubcommand "root" ClapS.deployReg ClapS.runCmd).1 "d" =
        Option.none ∧
    Clap.addOption Clap.alphaReg Clap.betaColliding =
      ([("alpha", Clap.alphaAliased)], some (.aliasExists "alpha" "a")) ∧
    lookupAssoc Clap.alphaReg "a" = some Clap.alphaAliased ∧
    lookupAssoc (Clap.addOption Clap.alphaReg Clap.betaColliding).1 "a" =
      Option.none :=
  ⟨rfl, rfl, rfl, rfl, rfl, rfl⟩

/-- C3 counterexample: with descriptor `int | None` and a declared
default of `5`, converting an unparsable string reaches the `NoneType`
candidate and returns `None` — not the declared default — in the
`clap/` converter; the `src/clap/` converter never returns at the
`NoneType` candidate at all and raises instead. -/
theorem c3_counterexample :
    Clap.convert (.union [.int, .noneType]) "x" (Value.int 5) =
      .ok Value.none ∧
    Value.none ≠ Value.int 5 ∧
    ClapS.convertS "x" (.union [.int, .noneType]) (Value.int 5) =
      .error (.unableUnion "x" ["int", "NoneType"]) :=
  ⟨rfl, by decide, rfl⟩

/-- C3 (amended): union candidates are tried left to right and the
first success is returned; reaching the `NoneType` candidate returns
`None` when a default is declared and the `MISSING` sentinel when it is
not; when every candidate fails, one error is raised naming every
attempted candidate; `convert("1")` on `int | bool` is the integer `1`
and `convert("true")` is `true`. -/
theorem c3_union_conversion_amended :
    (∀ (b : Base) (rest : List Base) (arg : String) (d v : Value),
        b ≠ Base.noneType → Clap.actualConversion b arg = .ok v →
        Clap.convert (.union (b :: rest)) arg d = .ok v) ∧
    (∀ (pre rest : List Base) (arg : String) (d : Value),
        (∀ b ∈ pre, b ≠ Base.noneType ∧
            ∃ e, Clap.actualConversion b arg = .error e) →
        Clap.convert (.union (pre ++ Base.noneType :: rest)) arg d =
          .ok (if d ≠ Value.missing then Value.none else d)) ∧
    (∀ (args : List Base) (arg : String) (d : Value),
        (∀ b ∈ args, b ≠ Base.noneType ∧
            ∃ e, Clap.actualConversion b arg = .error e) →
        Clap.convert (.union args) arg d =
          .error (.unableUnion arg (args.map Base.pyName))) ∧
    Clap.convert (.union [.int, .bool]) "1" Value.missing = .ok (.int 1) ∧
    Clap.convert (.union [.int, .bool]) "true" Value.missing =
      .ok (.bool true) := by
  refine ⟨?_, ?_, ?_, rfl, rfl⟩
  · intro b rest arg d v hb h
    exact convertUnionGo_cons_ok hb h
  · intro pre rest arg d h
    show Clap.convertUnionGo _ arg d _ = _
    rw [convertUnionGo_skip h, convertUnionGo_noneHead]
  · intro args arg d h
    show Clap.convertUnionGo _ arg d _ = _
    have h2 := @convertUnionGo_skip args arg d args [] h
    rw [List.append_nil] at h2
    rw [h2]
    rfl

/-- C3 witness: the amended theorem applied to `int | bool` on `"1"`. -/
theorem c3_union_conversion_amended_witness :
    Clap.convert (.union [Base.int, Base.bool]) "1" Value.missing =
      .ok (Value.int 1) :=
  c3_union_conversion_amended.1 Base.int [Base.bool] "1" Value.missing
    (Value.int 1) (by decide) rfl

end Spec2Proof

namespace Spec2Proof

/-- C4 counterexample: the claim's catch-all rule says any other string
is a PositionalArgument, but `-@` (a `-` followed by a character that
is neither alphabetic nor numeric) raises `NotImplementedError` in
`TokenKind.from_string`; the `clap/` lexer's `-`-rule also requires the
entire remainder to be numeric, so `-5x` raises there as well. -/
theorem c4_counterexample :
    ClapS.TokenKind.fromString "-@" = .error .notImplemented ∧
    (Except.error ClapS.ErrS.notImplemented ≠
      (.ok ClapS.TokenKind.argument : Except ClapS.ErrS ClapS.TokenKind)) ∧
    Clap.maybeShortOption "-5x" = .error .notImplemented :=
  ⟨rfl, by simp, rfl⟩

/-- C4 (amended): `TokenKind.from_string` classifies `--` as Escape,
longer `--`-strings as LongOption, `-` as Stdin, `-`+alphabetic as
ShortOptionStack, `-`+numeric as PositionalArgument, strings not
starting with `-` as PositionalArgument, and raises
`NotImplementedError` for `-` followed by any other character; `-5` is
a PositionalArgument, never a short stack.  The `clap/` lexer agrees
except that its negative-number rule requires the whole remainder to be
numeric (`-5x` raises there). -/
theorem c4_classification_amended :
    ClapS.TokenKind.fromString "--" = .ok .escape ∧
    (∀ cs : List Char, cs ≠ [] →
        ClapS.TokenKind.fromStringL ('-' :: '-' :: cs) = .ok .long) ∧
    ClapS.TokenKind.fromString "-" = .ok .stdin ∧
    (∀ (c : Char) (cs : List Char), c.isAlpha = true →
        ClapS.TokenKind.fromStringL ('-' :: c :: cs) = .ok .short) ∧
    (∀ (c : Char) (cs : List Char), c.isDigit = true →
        ClapS.TokenKind.fromStringL ('-' :: c :: cs) = .ok .argument) ∧
    (∀ (c : Char) (cs : List Char), c ≠ '-' →
        ClapS.TokenKind.fromStringL (c :: cs) = .ok .argument) ∧
    (∀ (c : Char) (cs : List Char), c ≠ '-' → c.isAlpha = false →
        c.isDigit = false →
        ClapS.TokenKind.fromStringL ('-' :: c :: cs) =
          .error .notImplemented) ∧
    ClapS.TokenKind.fromString "-5" = .ok .argument ∧
    Clap.maybeShortOption "-5" = .ok .argument ∧
    Clap.maybeShortOption "-5x" = .error .notImplemented ∧
    Clap.classify "-5" = .ok .argument := by
  refine ⟨rfl, ?_, rfl, ?_, ?_, ?_, ?_, rfl, rfl, rfl, rfl⟩
  · intro cs h
    cases cs with
    | nil => exact absurd rfl h
    | cons a as => simp [ClapS.TokenKind.fromStringL]
  · intro c cs h
    have hd : c ≠ '-' := ne_dash_of_isAlpha h
    simp [ClapS.TokenKind.fromStringL, hd, h]
  · intro c cs h
    have hd : c ≠ '-' := ne_dash_of_isDigit h
    have ha : c.isAlpha = false := isAlpha_false_of_isDigit h
    simp [ClapS.TokenKind.fromStringL, hd, ha, h]
  · intro c cs h
    simp [ClapS.TokenKind.fromStringL, h]
  · intro c cs h ha hd
    simp [ClapS.TokenKind.fromStringL, h, ha, hd]

/-- C4 witness: the amended classification applied to `-x`. -/
theorem c4_classification_amended_witness :
    ClapS.TokenKind.fromStringL ['-', 'x'] = .ok ClapS.TokenKind.short :=
  c4_classification_amended.2.2.2.1 'x' [] (by decide)

/-- C5 counterexample: on the malformed stack `-a1b2` the claim's
literal scan ("absorbs the remaining digits") would produce
`[(a, "1")]`, but `src/clap`'s `as_short_option` raises an
`ArgumentError` and `clap/`'s `from_short_option` absorbs the whole
remainder `1b2`; moreover `clap/`'s generator yields no pair at all on
a bare `-` (its `return (("", ""),)` is swallowed by the generator
protocol), where the claim requires the single pair `("", "")`. -/
theorem c5_counterexample :
    claimedShortSplit "a1b2".data = [("a", "1")] ∧
    (ClapS.Token.mk .short "-a1b2").asShortOption =
      .error (.argumentError "expected value for 'a' to be numeric") ∧
    (Clap.Token.mk .shortOption "-a1b2").fromShortOptionPairs =
      .ok [("a", "1b2")] ∧
    [("a", "1b2")] ≠ [(("a" : String), ("1" : String))] ∧
    (Clap.Token.mk .shortOption "-").fromShortOptionPairs = .ok [] ∧
    ([] : List (String × String)) ≠ [("", "")] :=
  ⟨rfl, rfl, rfl, by decide, rfl, by decide⟩

/-- C5 (amended): the scan is character by character: a character
followed by a digit absorbs the *entire* remainder as its value and
ends the scan (`src/clap` additionally raises unless that remainder is
wholly numeric; `clap/` takes it verbatim); a character followed by `=`
absorbs the remainder after the `=` and ends the scan; otherwise the
character is a zero-value flag and scanning continues; a bare `-`
yields the single pair `("", "")` from `src/clap`'s `as_short_option`,
while `clap/`'s generator yields no pairs; `-p8080` yields `p` with
value `8080` and `-abc` yields three zero-value flags in both. -/
theorem c5_short_stack_amended :
    (ClapS.Token.mk .short "-").asShortOption = .ok [("", "")] ∧
    (Clap.Token.mk .shortOption "-").fromShortOptionPairs = .ok [] ∧
    (∀ ks : List Char, ks ≠ [] → ks.all Char.isAlpha = true →
        ClapS.asShortOptionGo ks =
          .ok (ks.map fun c => (String.mk [c], "")) ∧
        Clap.fromShortOptionGo ks =
          .ok (ks.map fun c => (String.mk [c], ""))) ∧
    (∀ (c c2 : Char) (rest : List Char), c2.isDigit = true →
        (c2 :: rest).all Char.isDigit = true →
        ClapS.asShortOptionGo (c :: c2 :: rest) =
          .ok [(String.mk [c], String.mk (c2 :: rest))]) ∧
    (∀ (c c2 : Char) (rest : List Char), c2.isDigit = true →
        Clap.fromShortOptionGo (c :: c2 :: rest) =
          .ok [(String.mk [c], String.mk (c2 :: rest))]) ∧
    (∀ (c : Char) (v : List Char),
        ClapS.asShortOptionGo (c :: '=' :: v) =
          .ok [(String.mk [c], String.mk v)] ∧
        Clap.fromShortOptionGo (c :: '=' :: v) =
          .ok [(String.mk [c], String.mk v)]) ∧
    (ClapS.Token.mk .short "-p8080").asShortOption = .ok [("p", "8080")] ∧
    (Clap.Token.mk .shortOption "-p8080").fromShortOptionPairs =
      .ok [("p", "8080")] ∧
    (ClapS.Token.mk .short "-abc").asShortOption =
      .ok [("a", ""), ("b", ""), ("c", "")] ∧
    (Clap.Token.mk .shortOption "-abc").fromShortOptionPairs =
      .ok [("a", ""), ("b", ""), ("c", "")] := by
  refine ⟨rfl, rfl, ?_, ?_, ?_, ?_, rfl, rfl, rfl, rfl⟩
  · intro ks h1 h2
    exact ⟨asShortOptionGo_flags ks h1 h2, fromShortOptionGo_flags ks h1 h2⟩
  · intro c c2 rest h hall
    exact asShortOptionGo_digit h hall
  · intro c c2 rest h
    exact fromShortOptionGo_digit h
  · intro c v
    exact ⟨asShortOptionGo_eq_value c v, fromShortOptionGo_eq_value c v⟩

/-- C5 witness: the amended scan applied to the all-alphabetic stack
`xy`. -/
theorem c5_short_stack_amended_witness :
    ClapS.asShortOptionGo ['x', 'y'] =
      .ok (['x', 'y'].map fun c => (String.mk [c], "")) :=
  (c5_short_stack_amended.2.2.1 ['x', 'y'] (by decide) (by decide)).1

/-- C6: with `verbose` declared as conflicting with `quiet` (both
boolean), `--verbose --quiet` fails with a Conflict error naming both —
but so does `--verbose` alone, because the default-filling pass binds
`quiet` to its automatic boolean default `False` before the conflict
check, which inspects the whole bound key set. -/
theorem c6_conflict_bug_eval :
    Clap.parse Clap.conflictRoot ["prog", "--verbose"] =
      .error (.conflictError "verbose" "quiet") ∧
    Clap.parse Clap.conflictRoot ["prog", "--verbose", "--quiet"] =
      .error (.conflictError "verbose" "quiet") :=
  ⟨rfl, rfl⟩

end Spec2Proof

namespace Spec2Proof

/-- C7: two distinct long options of the same reached node bind to
identical maps in either order: the deferred flush commits each token's
resolution independently, and updates under distinct keys commute up to
lookup. -/
theorem c7_order_independence (ctx : Clap.Ctx) (tA tB : Clap.Token)
    (hA : tA.tokenType = .longOption) (hB : tB.tokenType = .longOption)
    (kA kB : String) (vA vB : Value)
    (hra : Clap.longResolve ctx.command tA = .ok (kA, vA))
    (hrb : Clap.longResolve ctx.command tB = .ok (kB, vB))
    (hne : kA ≠ kB) :
    Clap.handleDeferredTokens [tA, tB] ctx =
      .ok { ctx with keyword := setk (setk ctx.keyword kA vA) kB vB } ∧
    Clap.handleDeferredTokens [tB, tA] ctx =
      .ok { ctx with keyword := setk (setk ctx.keyword kB vB) kA vA } ∧
    ∀ k, lookupAssoc (setk (setk ctx.keyword kA vA) kB vB) k =
        lookupAssoc (setk (setk ctx.keyword kB vB) kA vA) k := by
  have run : ∀ (t u : Clap.Token) (k1 : String) (v1 : Value) (k2 : String)
      (v2 : Value),
      t.tokenType = .longOption → u.tokenType = .longOption →
      Clap.longResolve ctx.command t = .ok (k1, v1) →
      Clap.longResolve ctx.command u = .ok (k2, v2) →
      Clap.handleDeferredTokens [t, u] ctx =
        .ok { ctx with keyword := setk (setk ctx.keyword k1 v1) k2 v2 } := by
    intro t u k1 v1 k2 v2 ht hu hr1 hr2
    have step1 : Clap.handleLongOptionToken t (some u) ctx =
        .ok { ctx with keyword := setk ctx.keyword k1 v1 } := by
      rw [handleLong_eq_longResolve t (some u) ctx (Or.inr ⟨u, rfl, hu⟩), hr1]
      rfl
    have step2 : Clap.handleLongOptionToken u Option.none
        { ctx with keyword := setk ctx.keyword k1 v1 } =
        .ok { ctx with keyword := setk (setk ctx.keyword k1 v1) k2 v2 } := by
      rw [handleLong_eq_longResolve u Option.none
        { ctx with keyword := setk ctx.keyword k1 v1 } (Or.inl rfl)]
      have : Clap.longResolve
          ({ ctx with keyword := setk ctx.keyword k1 v1 } : Clap.Ctx).command
            u = .ok (k2, v2) := hr2
      rw [this]
      rfl
    simp only [Clap.handleDeferredTokens, List.head?, ht, hu]
    rw [step1]
    simp only [Bind.bind, Except.bind]
    rw [step2]
  exact ⟨run tA tB kA vA kB vB hA hB hra hrb,
    run tB tA kB vB kA vA hB hA hrb hra,
    fun k => lookupAssoc_setk_comm ctx.keyword kA kB vA vB hne k⟩

end Spec2Proof

namespace Spec2Proof

/-- C7 witness: the order-independence theorem applied to `--alpha` and
`--beta` against `orderNode`. -/
theorem c7_order_independence_witness :
    Clap.handleDeferredTokens
        [⟨.longOption, "--alpha"⟩, ⟨.longOption, "--beta"⟩]
        ⟨Clap.orderNode, [], []⟩ =
      .ok { (⟨Clap.orderNode, [], []⟩ : Clap.Ctx) with
        keyword := setk (setk [] "alpha" (Value.str "")) "beta"
          (Value.bool true) } :=
  (c7_order_independence ⟨Clap.orderNode, [], []⟩
    ⟨.longOption, "--alpha"⟩ ⟨.longOption, "--beta"⟩ rfl rfl
    "alpha" "beta" (Value.str "") (Value.bool true) rfl rfl
    (by decide)).1

/-- C8 counterexample: `["run", "--", "--not-an-option"]` against a
one-positional leaf does not bind the positional — the post-escape
token is forced to ARGUMENT, and `Token.is_argument` then evaluates
`is_negative_number`, whose `self[1:]` subscripts the `Token` object
and raises `TypeError`. -/
theorem c8_counterexample :
    Clap.parse Clap.escapeRoot ["prog", "run", "--", "--not-an-option"] =
      .error .typeErrorTokenSubscript ∧
    (Except.error Clap.PErr.typeErrorTokenSubscript ≠
      (.ok (.invoked "run" [Value.str "--not-an-option"] []) :
        Except Clap.PErr Clap.Outcome)) :=
  ⟨rfl, by simp⟩

/-- C8 (amended): the parser skips the escape token without flushing
(deferred options are flushed only at end of stream); the lexer forces
every token after the escape index to PositionalArgument; a
non-dashed post-escape word still goes through subcommand lookup when
the active node has subcommands (the node is not fixed); a non-dashed
post-escape word against a leaf binds as a positional; and a dashed
post-escape token crashes with `TypeError` inside
`Token.is_argument`. -/
theorem c8_escape_amended :
    (∀ (args : List String) (i : Nat) (s : String),
        i > Clap.escapeIndex args →
        Clap.tokenAt (Clap.escapeIndex args) i s =
          .ok ⟨.argument, s⟩) ∧
    Clap.parse Clap.escapeRoot ["prog", "run", "--", "notanoption"] =
      .ok (.invoked "run" [Value.str "notanoption"] []) ∧
    Clap.parse Clap.escapeRoot ["prog", "--", "run", "x"] =
      .ok (.invoked "run" [Value.str "x"] []) ∧
    Clap.parse Clap.escapeRoot ["prog", "run", "--", "--not-an-option"] =
      .error .typeErrorTokenSubscript := by
  refine ⟨?_, rfl, rfl, rfl⟩
  intro args i s h
  simp [Clap.tokenAt, h]

/-- C8 witness: the forced-ARGUMENT rule applied after the escape. -/
theorem c8_escape_amended_witness :
    Clap.tokenAt (Clap.escapeIndex ["--", "x"]) 1 "x" =
      .ok ⟨Clap.TokenType.argument, "x"⟩ :=
  c8_escape_amended.1 ["--", "x"] 1 "x" (by decide)

/-- C9 counterexample: an unknown option makes `parse` itself print
`error: unknown option: bogus` to stderr and call `sys.exit(1)` — the
core does perform console output and a process exit rather than leaving
presentation to the caller. -/
theorem c9_counterexample :
    ClapS.parse ClapS.appS ["--bogus"] =
      .ok (.exited 1 "error: unknown option: bogus") ∧
    "error: unknown option: bogus" ≠ "" :=
  ⟨rfl, by decide⟩

/-- C9 (amended): an `ArgumentError` anywhere inside `_parse_app`
aborts the walk — no partial binding reaches the result loop — but
`parse` catches it, prints `error: <message>` to stderr and exits with
status 1 itself; exceptions other than `ArgumentError` propagate to the
caller unchanged. -/
theorem c9_error_propagation_amended :
    (∀ (app : ClapS.CmdS) (input : List String) (msg : String),
        ClapS.parseApp app input = .error (.argumentError msg) →
        ClapS.parse app input = .ok (.exited 1 ("error: " ++ msg))) ∧
    (∀ (app : ClapS.CmdS) (input : List String),
        ClapS.parseApp app input = .error .notImplemented →
        ClapS.parse app input = .error .notImplemented) ∧
    ClapS.parse ClapS.appS ["--bogus"] =
      .ok (.exited 1 "error: unknown option: bogus") := by
  refine ⟨?_, ?_, rfl⟩
  · intro app input msg h
    simp [ClapS.parse, h]
  · intro app input h
    simp [ClapS.parse, h]

/-- C9 witness: the amended propagation rule applied to a concrete
unknown option. -/
theorem c9_error_propagation_amended_witness :
    ClapS.parse ClapS.appS ["--nope"] =
      .ok (.exited 1 ("error: " ++ "unknown option: nope")) :=
  c9_error_propagation_amended.1 ClapS.appS ["--nope"]
    "unknown option: nope" rfl

/-- C10: an `Option` built with target type `bool` never keeps the
`MISSING` default — an unset default becomes `False` — so the parser's
bare-boolean-flag branch (`str(not default)`) is always defined and
never trips its assertion. -/
theorem c10_bool_default (name brief : String) (d : Value)
    (na : Clap.NArgsIn) (al : Option String)
    (req conf : Option (List String)) (o : Clap.Opt)
    (h : Clap.mkOption name brief (some (Ty.base Base.bool)) d na al req
      conf = .ok o) :
    o.default ≠ Value.missing ∧
    (d = Value.missing → o.default = Value.bool false) ∧
    Clap.longOptionRawValue o Option.none "" =
      .ok (pyStrOfBool (pyNot o.default)) := by
  cases na
  all_goals
    simp only [Clap.mkOption, Option.getD_some, eq_self_iff_true, and_true]
      at h
    split at h
    next => exact absurd h (by simp)
    next =>
      injection h with h
      subst h
      by_cases hd : d = Value.missing
      · subst hd
        exact ⟨by simp, fun _ => by simp, by
          simp [Clap.longOptionRawValue, Bind.bind, Except.bind, Pure.pure,
            Except.pure]⟩
      · exact ⟨by simp [hd], fun h2 => absurd h2 hd, by
          simp [Clap.longOptionRawValue, hd, Bind.bind, Except.bind,
            Pure.pure, Except.pure]⟩

/-- C10 witness: the invariant applied to a boolean `flag` option built
with an unset default. -/
theorem c10_bool_default_witness :
    Clap.mkOption "flag" "A flag." (some (Ty.base Base.bool)) Value.missing
        (Clap.NArgsIn.pair 0 1) Option.none Option.none Option.none =
      .ok Clap.mkBoolOptExpected ∧
    Clap.mkBoolOptExpected.default ≠ Value.missing ∧
    Clap.mkBoolOptExpected.default = Value.bool false ∧
    Clap.longOptionRawValue Clap.mkBoolOptExpected Option.none "" =
      .ok (pyStrOfBool (pyNot Clap.mkBoolOptExpected.default)) := by
  have h := c10_bool_default "flag" "A flag." Value.missing
    (Clap.NArgsIn.pair 0 1) Option.none Option.none Option.none
    Clap.mkBoolOptExpected rfl
  exact ⟨rfl, h.1, h.2.1 rfl, h.2.2⟩

end Spec2Proof
